import Mathlib

/-!
Verification development for the ETL pipeline's transform stage
(`transform_data` in `etl_pipeline_data_warehouse_python_postgres.ipynb`).
The transform merges a product table and a review table, cleans the
merged rows and decomposes them into one fact table and four dimension
tables.  Pandas dataframes are embedded as lists of records; float
columns, which the transform only carries along and never computes
with, are embedded as rationals; nullable columns as `Option`;
operations that can raise (`Series.mode()[0]` on an all-null column,
`pd.to_datetime` on an unparseable string) return `Except`.
-/

namespace ETL

/-- Error conditions that abort the transform: an undefined mode
(`Series.mode()[0]` raising `KeyError` on a column with no non-null
values), an unparseable submission timestamp (`pd.to_datetime`
raising), and a reviewer identifier on which `int()` raises
`ValueError` even though `str.isdigit()` accepted it (a digit-only
character such as a superscript). -/
inductive TError where
  | modeUndefined : String → TError
  | badDate : String → TError
  | badReviewerId : String → TError
deriving DecidableEq, Repr

/-- Calendar timestamp as produced by `pd.to_datetime` on a
date-only string: year, month and day parts. -/
structure DateT where
  year : Nat
  month : Nat
  day : Nat
deriving DecidableEq, Repr

/-- Raw product record: the columns `extract_data` selects from
`product_info.csv` (`product_id`, `brand_id`, `loves_count`, `rating`,
`reviews`, `primary_category`, `child_count`).  Float columns are
embedded as rationals, nullable columns as `Option`. -/
structure RawProduct where
  product_id : String
  brand_id : Int
  loves_count : Option Int
  rating : Option Rat
  reviews : Option Rat
  primary_category : Option String
  child_count : Option Int
deriving DecidableEq, Repr

/-- Raw review record: the columns `extract_data` selects from
`product_reviews.csv`.  `author_id` is a string that may hold
non-numeric tokens; `submission_time` is the unparsed date string. -/
structure RawReview where
  author_id : String
  rating : Option Int
  submission_time : String
  review_text : Option String
  review_title : Option String
  skin_tone : Option String
  eye_color : Option String
  skin_type : Option String
  hair_color : Option String
  product_id : String
  product_name : String
  brand_name : String
  price_usd : Rat
deriving DecidableEq, Repr

/-- One row of the merged dataframe `df_merged`, after the
`rename_dict` renaming.  The type is parametrised by the type of the
`full_date` column (`String` before `pd.to_datetime`, `DateT` after)
and of the `reviewer_id` column (`String` before the `int` conversion,
`Nat` after). -/
structure Row (δ ρ : Type) where
  product_id : String
  brand_id : Int
  favorites_count : Option Int
  avg_product_rating : Option Rat
  product_reviews_count : Option Rat
  product_category : Option String
  variations_count : Option Int
  reviewer_id : ρ
  review_rating : Option Int
  full_date : δ
  review_text : Option String
  review_title : Option String
  reviewer_skin_tone : Option String
  reviewer_skin_type : Option String
  reviewer_eye_color : Option String
  reviewer_hair_color : Option String
  product_name : String
  brand_name : String
  product_price : Rat
deriving DecidableEq, Repr

/-- Merged rows straight after the join and rename. -/
abbrev Merged := Row String String

/-- Merged rows after `pd.to_datetime` has replaced `full_date`. -/
abbrev Dated := Row DateT String

/-- Fully cleaned rows: date parsed and `reviewer_id` converted to a
non-negative integer. -/
abbrev Cleaned := Row DateT Nat

/-- Rebuild a row while converting the `full_date` and `reviewer_id`
columns; every other column is carried unchanged. -/
def Row.convert {δ ρ δ' ρ' : Type} (f : δ → δ') (g : ρ → ρ') (r : Row δ ρ) : Row δ' ρ' :=
  ⟨r.product_id, r.brand_id, r.favorites_count, r.avg_product_rating,
   r.product_reviews_count, r.product_category, r.variations_count,
   g r.reviewer_id, r.review_rating, f r.full_date, r.review_text,
   r.review_title, r.reviewer_skin_tone, r.reviewer_skin_type,
   r.reviewer_eye_color, r.reviewer_hair_color, r.product_name,
   r.brand_name, r.product_price⟩

/-- Pairing of one product row with one matching review row, applying
`rename_dict`: `loves_count` becomes `favorites_count`, the product's
`rating` becomes `avg_product_rating`, `reviews` becomes
`product_reviews_count`, `primary_category` becomes
`product_category`, `child_count` becomes `variations_count`, the
review's `rating` becomes `review_rating`, `submission_time` becomes
`full_date`, the categorical columns gain the `reviewer_` prefix,
`price_usd` becomes `product_price` and `author_id` becomes
`reviewer_id`. -/
def mkMerged (p : RawProduct) (r : RawReview) : Merged :=
  ⟨p.product_id, p.brand_id, p.loves_count, p.rating, p.reviews,
   p.primary_category, p.child_count, r.author_id, r.rating,
   r.submission_time, r.review_text, r.review_title, r.skin_tone,
   r.skin_type, r.eye_color, r.hair_color, r.product_name,
   r.brand_name, r.price_usd⟩

/-- Embeds `pd.merge(df1, df2, how="inner", on="product_id")` followed
by the rename: for each left row in order, one merged row per matching
right row in right order (the pandas-documented inner-merge row
order). -/
def df_merged (df1 : List RawProduct) (df2 : List RawReview) : List Merged :=
  df1.flatMap (fun p => (df2.filter (fun r => decide (r.product_id = p.product_id))).map (mkMerged p))

/-- Embeds `df_merged.dropna(subset=["review_text"])`: pandas drops
exactly the rows whose `review_text` is a missing value (`None`); an
empty string is not missing and is kept. -/
def dropNullText (l : List Merged) : List Merged :=
  l.filter (fun r => r.review_text.isSome)

/-- Embeds `df_merged["review_title"].fillna("Review Provided")`. -/
def fillTitle (l : List Merged) : List Merged :=
  l.map (fun r => { r with review_title := some (r.review_title.getD "Review Provided") })

/-- Non-null values of one categorical column, in row order (the
values `Series.mode()` counts). -/
def catVals (f : Merged → Option String) (l : List Merged) : List String :=
  l.filterMap f

/-- Fold picking the best mode candidate: a later candidate replaces
the current one when it is strictly more frequent, or equally frequent
and smaller — so the result is the smallest value of maximal count,
which is what `Series.mode()[0]` returns (pandas sorts the modes
ascending and `[0]` takes the first). -/
def modeBest (cnt : String → Nat) : String → List String → String
  | b, [] => b
  | b, c :: cs =>
      modeBest cnt (if cnt c > cnt b ∨ (cnt c = cnt b ∧ c < b) then c else b) cs

/-- Embeds `Series.mode()[0]`: `none` when the series has no non-null
value (pandas raises `KeyError`), otherwise the smallest most-frequent
value. -/
def modeStr (l : List String) : Option String :=
  match l.dedup with
  | [] => none
  | x :: xs => some (modeBest (fun v => l.count v) x xs)

/-- Embeds the `reviewer_skin_tone` fillna-with-mode step; errors when
the column has no non-null value. -/
def fillSkinTone (l : List Merged) : Except TError (List Merged) :=
  match modeStr (catVals (fun r => r.reviewer_skin_tone) l) with
  | none => .error (.modeUndefined "reviewer_skin_tone")
  | some m => .ok (l.map (fun r => { r with reviewer_skin_tone := some (r.reviewer_skin_tone.getD m) }))

/-- Embeds the `reviewer_eye_color` fillna-with-mode step. -/
def fillEyeColor (l : List Merged) : Except TError (List Merged) :=
  match modeStr (catVals (fun r => r.reviewer_eye_color) l) with
  | none => .error (.modeUndefined "reviewer_eye_color")
  | some m => .ok (l.map (fun r => { r with reviewer_eye_color := some (r.reviewer_eye_color.getD m) }))

/-- Embeds the `reviewer_skin_type` fillna-with-mode step. -/
def fillSkinType (l : List Merged) : Except TError (List Merged) :=
  match modeStr (catVals (fun r => r.reviewer_skin_type) l) with
  | none => .error (.modeUndefined "reviewer_skin_type")
  | some m => .ok (l.map (fun r => { r with reviewer_skin_type := some (r.reviewer_skin_type.getD m) }))

/-- Embeds the `reviewer_hair_color` fillna-with-mode step. -/
def fillHairColor (l : List Merged) : Except TError (List Merged) :=
  match modeStr (catVals (fun r => r.reviewer_hair_color) l) with
  | none => .error (.modeUndefined "reviewer_hair_color")
  | some m => .ok (l.map (fun r => { r with reviewer_hair_color := some (r.reviewer_hair_color.getD m) }))

/-- The four categorical fillna-with-mode steps in source order:
skin tone, eye color, skin type, hair color. -/
def fillCats (l : List Merged) : Except TError (List Merged) :=
  match fillSkinTone l with
  | .error e => .error e
  | .ok l1 =>
    match fillEyeColor l1 with
    | .error e => .error e
    | .ok l2 =>
      match fillSkinType l2 with
      | .error e => .error e
      | .ok l3 => fillHairColor l3

/-- ASCII decimal digit test on a character (used by the ISO date
parser, whose input alphabet is ASCII). -/
def isDig (c : Char) : Bool :=
  48 ≤ c.toNat && c.toNat ≤ 57

/-- Value of an ASCII decimal digit. -/
def digVal (c : Char) : Nat := c.toNat - 48

/-- Base-10 value of a list of ASCII digits. -/
def natOfDigits (l : List Char) : Nat :=
  l.foldl (fun a c => 10 * a + digVal c) 0

/-- Start codepoints of the Unicode decimal-digit runs (general
category Nd): each entry opens a run of ten consecutive codepoints
carrying the decimal values 0 to 9 in order (the first run, starting
at 48, is the ASCII digits; 1632 starts the Arabic-Indic digits, and
so on).  Transcribed from the Unicode character database
(version 14.0.0) that CPython's `str.isdigit` and `int` consult. -/
def decimalRunStarts : List Nat :=
  [48, 1632, 1776, 1984, 2406, 2534, 2662, 2790, 2918, 3046, 3174,
   3302, 3430, 3558, 3664, 3792, 3872, 4160, 4240, 6112, 6160, 6470,
   6608, 6784, 6800, 6992, 7088, 7232, 7248, 42528, 43216, 43264,
   43472, 43504, 43600, 44016, 65296, 66720, 68912, 69734, 69872,
   69942, 70096, 70384, 70736, 70864, 71248, 71360, 71472, 71904,
   72016, 72784, 73040, 73120, 92768, 92864, 93008, 120782, 120792,
   120802, 120812, 120822, 123200, 123632, 125264, 130032]

/-- Codepoint ranges (inclusive) of the characters with Unicode
Numeric_Type=Digit that are not decimal digits — superscripts such as
178 (the superscript two), subscripts, circled digits, and the like.
They satisfy Python's `str.isdigit` but make `int()` raise
`ValueError`.  Transcribed from the same Unicode database. -/
def digitOnlyRanges : List (Nat × Nat) :=
  [(178, 179), (185, 185), (4969, 4977), (6618, 6618), (8304, 8304),
   (8308, 8313), (8320, 8329), (9312, 9320), (9332, 9340),
   (9352, 9360), (9450, 9450), (9461, 9469), (9471, 9471),
   (10102, 10110), (10112, 10120), (10122, 10130), (68160, 68163),
   (69216, 69224), (69714, 69722), (127232, 127242)]

/-- The Unicode decimal value of a character, when it has one
(Numeric_Type=Decimal): the run of ten containing the codepoint gives
the value as the offset from the run start. -/
def pyDecimalVal (c : Char) : Option Nat :=
  (decimalRunStarts.find? (fun s => s ≤ c.toNat && c.toNat ≤ s + 9)).map
    (fun s => c.toNat - s)

/-- Is the character a digit in Python's sense (`Py_UNICODE_ISDIGIT`:
Numeric_Type Digit or Decimal)?  This is the per-character test behind
`str.isdigit()`; it accepts every decimal digit of any script and the
digit-only characters, not just ASCII 0-9. -/
def pyIsDigitChar (c : Char) : Bool :=
  (pyDecimalVal c).isSome ||
    digitOnlyRanges.any (fun p => p.1 ≤ c.toNat && c.toNat ≤ p.2)

/-- Embeds Python `str.isdigit()`: true exactly when the string is
non-empty and every character is a digit character (decimal or
digit-only) of the Unicode database. -/
def str_isdigit (s : String) : Bool :=
  !s.data.isEmpty && s.data.all pyIsDigitChar

/-- Embeds the `checkNumeric` utility of the notebook:
`return True if str(val).isdigit() else False`. -/
def checkNumeric (val : String) : Bool :=
  if str_isdigit val then true else false

/-- One step of `int()` over a digit string: accumulate the Unicode
decimal value of the character, failing on a character that has
none. -/
def pyIntStep (acc : Option Nat) (c : Char) : Option Nat :=
  match acc, pyDecimalVal c with
  | some a, some v => some (10 * a + v)
  | _, _ => none

/-- Embeds Python `int(x)` on the digit strings the transform applies
it to: the base-10 number denoted by the characters' Unicode decimal
values; `none` models the raised `ValueError`, on the empty string or
on any character without a decimal value (such as a superscript, which
`str.isdigit` nevertheless accepts). -/
def pyInt (s : String) : Option Nat :=
  if s.data.isEmpty then none
  else s.data.foldl pyIntStep (some 0)

/-- Leap-year rule of the proleptic Gregorian calendar used by
pandas timestamps. -/
def isLeap (y : Nat) : Bool :=
  y % 4 == 0 && (y % 100 != 0 || y % 400 == 0)

/-- Number of days of a month, for timestamp validation. -/
def daysInMonth (y m : Nat) : Nat :=
  if m = 2 then (if isLeap y then 29 else 28)
  else if m = 4 ∨ m = 6 ∨ m = 9 ∨ m = 11 then 30
  else 31

/-- Embeds `pd.to_datetime` on the ISO `YYYY-MM-DD` submission-time
strings of this dataset: `none` models the raised parse error. -/
def parseDate (s : String) : Option DateT :=
  match s.data with
  | [y1, y2, y3, y4, s1, m1, m2, s2, d1, d2] =>
      if s1 = '-' ∧ s2 = '-' ∧ isDig y1 ∧ isDig y2 ∧ isDig y3 ∧ isDig y4 ∧
         isDig m1 ∧ isDig m2 ∧ isDig d1 ∧ isDig d2 then
        let y := natOfDigits [y1, y2, y3, y4]
        let m := natOfDigits [m1, m2]
        let d := natOfDigits [d1, d2]
        if 1 ≤ m ∧ m ≤ 12 ∧ 1 ≤ d ∧ d ≤ daysInMonth y m then
          some ⟨y, m, d⟩
        else none
      else none
  | _ => none

/-- Embeds `pd.to_datetime(df_merged["full_date"])` over the whole
column: the first unparseable value aborts (the raised exception),
otherwise every row's `full_date` is replaced by its parsed value. -/
def parseDates : List Merged → Except TError (List Dated)
  | [] => .ok []
  | r :: rs =>
      match parseDate r.full_date with
      | none => .error (.badDate r.full_date)
      | some d =>
          match parseDates rs with
          | .error e => .error e
          | .ok rest => .ok (r.convert (fun _ => d) id :: rest)

/-- Embeds `df_merged[df_merged["is_numeric"] == True]` where
`is_numeric` is `checkNumeric` of the `reviewer_id` column. -/
def numericFilter (l : List Dated) : List Dated :=
  l.filter (fun r => checkNumeric r.reviewer_id)

/-- Embeds `df_merged["reviewer_id"].apply(lambda x: int(x))`: the
first identifier on which `int` raises aborts the run; otherwise every
row's reviewer_id is replaced by its integer value. -/
def convertIds : List Dated → Except TError (List Cleaned)
  | [] => .ok []
  | r :: rs =>
      match pyInt r.reviewer_id with
      | none => .error (.badReviewerId r.reviewer_id)
      | some n =>
          match convertIds rs with
          | .error e => .error e
          | .ok rest => .ok (r.convert id (fun _ => n) :: rest)

/-- One row of the `tbl_product_reviews` fact table. -/
structure FactRow where
  review_id : Nat
  product_id : String
  brand_id : Int
  reviewer_id : Nat
  date_id : DateT
  review_title : Option String
  review_text : Option String
  review_rating : Option Int
deriving DecidableEq, Repr

/-- One row of the `tbl_product` dimension. -/
structure ProductRow where
  product_id : String
  product_name : String
  avg_product_rating : Option Rat
  product_price : Rat
  product_reviews_count : Option Rat
  favorites_count : Option Int
  variations_count : Option Int
  product_category : Option String
deriving DecidableEq, Repr

/-- One row of the `tbl_brand` dimension. -/
structure BrandRow where
  brand_id : Int
  brand_name : String
deriving DecidableEq, Repr

/-- One row of the `tbl_reviewer` dimension. -/
structure ReviewerRow where
  reviewer_id : Nat
  reviewer_skin_tone : Option String
  reviewer_skin_type : Option String
  reviewer_eye_color : Option String
  reviewer_hair_color : Option String
deriving DecidableEq, Repr

/-- One row of the `tbl_date` dimension. -/
structure DateRow where
  date_id : DateT
  year : Nat
  month : Nat
  day : Nat
deriving DecidableEq, Repr

/-- Embeds `drop_duplicates(key)` with pandas' default `keep="first"`:
the accumulator holds keys already seen, the first row of each key is
kept in row order. -/
def dropDupAux {α κ : Type} [DecidableEq κ] (key : α → κ) : List κ → List α → List α
  | _, [] => []
  | seen, x :: xs =>
      if key x ∈ seen then dropDupAux key seen xs
      else x :: dropDupAux key (key x :: seen) xs

/-- Embeds `DataFrame.drop_duplicates(column)`. -/
def drop_duplicates {α κ : Type} [DecidableEq κ] (key : α → κ) (l : List α) : List α :=
  dropDupAux key [] l

/-- One fact row, from a cleaned row and its 1-based synthetic id. -/
def mkFact (n : Nat) (r : Cleaned) : FactRow :=
  ⟨n, r.product_id, r.brand_id, r.reviewer_id, r.full_date,
   r.review_title, r.review_text, r.review_rating⟩

/-- Embeds the fact-table construction: project the foreign keys,
title, text and rating, reset the index and insert
`review_id = index + 1`. -/
def buildReviews (n : Nat) : List Cleaned → List FactRow
  | [] => []
  | r :: rs => mkFact n r :: buildReviews (n + 1) rs

/-- Projection of a cleaned row onto the product-dimension columns. -/
def projProduct (r : Cleaned) : ProductRow :=
  ⟨r.product_id, r.product_name, r.avg_product_rating, r.product_price,
   r.product_reviews_count, r.favorites_count, r.variations_count,
   r.product_category⟩

/-- Projection of a cleaned row onto the brand-dimension columns. -/
def projBrand (r : Cleaned) : BrandRow :=
  ⟨r.brand_id, r.brand_name⟩

/-- Projection of a cleaned row onto the reviewer-dimension columns. -/
def projReviewer (r : Cleaned) : ReviewerRow :=
  ⟨r.reviewer_id, r.reviewer_skin_tone, r.reviewer_skin_type,
   r.reviewer_eye_color, r.reviewer_hair_color⟩

/-- Projection of a cleaned row onto the date-dimension columns
(`full_date` becomes `date_id`; year, month and day are the parts
derived from the parsed value). -/
def projDate (r : Cleaned) : DateRow :=
  ⟨r.full_date, r.full_date.year, r.full_date.month, r.full_date.day⟩

/-- Embeds the `product_df` construction: project the product columns
then `drop_duplicates("product_id")`. -/
def buildProductDim (c : List Cleaned) : List ProductRow :=
  drop_duplicates (fun p => p.product_id) (c.map projProduct)

/-- Embeds the `brand_df` construction: project `brand_id` and
`brand_name` then `drop_duplicates("brand_id")`. -/
def buildBrandDim (c : List Cleaned) : List BrandRow :=
  drop_duplicates (fun b => b.brand_id) (c.map projBrand)

/-- Embeds the `reviewer_df` construction. -/
def buildReviewerDim (c : List Cleaned) : List ReviewerRow :=
  drop_duplicates (fun v => v.reviewer_id) (c.map projReviewer)

/-- Embeds the `date_df` construction. -/
def buildDateDim (c : List Cleaned) : List DateRow :=
  drop_duplicates (fun d => d.date_id) (c.map projDate)

/-- The five outputs of the transform. -/
structure Outputs where
  reviews : List FactRow
  product : List ProductRow
  brand : List BrandRow
  reviewer : List ReviewerRow
  date : List DateRow
deriving DecidableEq, Repr, Inhabited

/-- Decomposition of a fully cleaned row set into the five outputs. -/
def mkOutputs (c : List Cleaned) : Outputs :=
  ⟨buildReviews 1 c, buildProductDim c, buildBrandDim c,
   buildReviewerDim c, buildDateDim c⟩

/-- Cleaning pipeline up to the date conversion: join and rename, drop
null review texts, default the title, mode-fill the four categorical
columns, parse the dates. -/
def datedStage (df1 : List RawProduct) (df2 : List RawReview) : Except TError (List Dated) :=
  match fillCats (fillTitle (dropNullText (df_merged df1 df2))) with
  | .error e => .error e
  | .ok filled => parseDates filled

/-- Cleaning pipeline including the numeric-reviewer-id filter and the
integer conversion. -/
def cleanedStage (df1 : List RawProduct) (df2 : List RawReview) : Except TError (List Cleaned) :=
  match datedStage df1 df2 with
  | .error e => .error e
  | .ok dated => convertIds (numericFilter dated)

/-- Embeds the notebook's `transform_data(df1, df2)`: the whole
cleaning pipeline followed by the dimensional decomposition; any
raised error yields no output at all. -/
def transform_data (df1 : List RawProduct) (df2 : List RawReview) : Except TError Outputs :=
  match cleanedStage df1 df2 with
  | .error e => .error e
  | .ok c => .ok (mkOutputs c)

/-! ### Lemmas about the mode computation -/

theorem modeBest_mem (cnt : String → Nat) (b : String) (l : List String) :
    modeBest cnt b l ∈ b :: l := by
  induction l generalizing b with
  | nil => simp [modeBest]
  | cons c cs ih =>
    rw [modeBest]
    rcases List.mem_cons.mp (ih (if cnt c > cnt b ∨ (cnt c = cnt b ∧ c < b) then c else b)) with h | h
    · rw [h]
      split
      · exact List.mem_cons_of_mem _ (List.mem_cons_self _ _)
      · exact List.mem_cons_self _ _
    · exact List.mem_cons_of_mem _ (List.mem_cons_of_mem _ h)

theorem modeBest_max (cnt : String → Nat) (b : String) (l : List String) :
    ∀ v ∈ b :: l, cnt v ≤ cnt (modeBest cnt b l) := by
  induction l generalizing b with
  | nil => intro v hv; rw [List.mem_singleton.mp hv]; simp [modeBest]
  | cons c cs ih =>
    intro v hv
    rw [modeBest]
    rcases List.mem_cons.mp hv with hb | hv'
    · subst hb
      refine le_trans ?_ (ih _ _ (List.mem_cons_self _ _))
      split
      · next hc =>
        rcases hc with hgt | ⟨heq, _⟩
        · exact le_of_lt hgt
        · exact le_of_eq heq.symm
      · exact le_refl _
    · rcases List.mem_cons.mp hv' with hc | hcs
      · subst hc
        refine le_trans ?_ (ih _ _ (List.mem_cons_self _ _))
        split
        · exact le_refl _
        · next hc =>
          push_neg at hc
          exact hc.1
      · exact ih _ _ (List.mem_cons_of_mem _ hcs)

theorem modeStr_eq_none (l : List String) : modeStr l = none ↔ l = [] := by
  unfold modeStr
  rcases hd : l.dedup with _ | ⟨x, xs⟩
  · simp [(List.dedup_eq_nil _).mp hd]
  · have hne : l ≠ [] := by
      rintro rfl
      simp at hd
    simp [hne]

theorem modeStr_spec (l : List String) (m : String) (h : modeStr l = some m) :
    m ∈ l ∧ ∀ v ∈ l, l.count v ≤ l.count m := by
  unfold modeStr at h
  rcases hd : l.dedup with _ | ⟨x, xs⟩ <;> rw [hd] at h
  · simp at h
  · have hm : m = modeBest (fun v => l.count v) x xs := by
      simpa using h.symm
    constructor
    · have : m ∈ x :: xs := hm ▸ modeBest_mem _ x xs
      rw [← hd] at this
      exact List.mem_dedup.mp this
    · intro v hv
      have hv' : v ∈ x :: xs := hd ▸ List.mem_dedup.mpr hv
      exact hm ▸ modeBest_max (fun v => l.count v) x xs v hv'

/-! ### Lemmas about first-occurrence deduplication -/

section Dedup

variable {α κ : Type} [DecidableEq κ] (key : α → κ)

theorem mem_key_dropDupAux (seen : List κ) (l : List α) (k : κ) :
    k ∈ (dropDupAux key seen l).map key ↔ k ∈ l.map key ∧ k ∉ seen := by
  induction l generalizing seen with
  | nil => simp [dropDupAux]
  | cons x xs ih =>
    rw [dropDupAux]
    split
    · next hx =>
      rw [ih]
      simp only [List.map_cons, List.mem_cons]
      constructor
      · rintro ⟨hm, hs⟩
        exact ⟨Or.inr hm, hs⟩
      · rintro ⟨hm | hm, hs⟩
        · exact absurd (hm ▸ hx) hs
        · exact ⟨hm, hs⟩
    · next hx =>
      simp only [List.map_cons, List.mem_cons, ih, List.mem_cons, not_or]
      constructor
      · rintro (rfl | ⟨hm, hne, hs⟩)
        · exact ⟨Or.inl rfl, fun hs => hx hs⟩
        · exact ⟨Or.inr hm, hs⟩
      · rintro ⟨rfl | hm, hs⟩
        · exact Or.inl rfl
        · by_cases hk : k = key x
          · exact Or.inl hk
          · exact Or.inr ⟨hm, hk, hs⟩

theorem nodup_key_dropDupAux (seen : List κ) (l : List α) :
    ((dropDupAux key seen l).map key).Nodup := by
  induction l generalizing seen with
  | nil => simp [dropDupAux]
  | cons x xs ih =>
    rw [dropDupAux]
    split
    · exact ih seen
    · simp only [List.map_cons, List.nodup_cons]
      refine ⟨fun hmem => ?_, ih _⟩
      exact ((mem_key_dropDupAux key _ _ _).mp hmem).2 (List.mem_cons_self _ _)

theorem find?_dropDupAux (seen : List κ) (l : List α) (x : α)
    (h : x ∈ dropDupAux key seen l) :
    key x ∉ seen ∧ l.find? (fun y => decide (key y = key x)) = some x := by
  induction l generalizing seen with
  | nil => simp [dropDupAux] at h
  | cons z zs ih =>
    rw [dropDupAux] at h
    split at h
    · next hz =>
      obtain ⟨hns, hfind⟩ := ih seen h
      refine ⟨hns, ?_⟩
      rw [List.find?_cons]
      split
      · next heq =>
        exact absurd ((of_decide_eq_true heq) ▸ hz) hns
      · exact hfind
    · next hz =>
      rcases List.mem_cons.mp h with rfl | hmem
      · refine ⟨hz, ?_⟩
        rw [List.find?_cons]
        split
        · rfl
        · next hne => simp at hne
      · obtain ⟨hns, hfind⟩ := ih (key z :: seen) hmem
        have hxz : key x ≠ key z := fun he => hns (he ▸ List.mem_cons_self _ _)
        refine ⟨fun hs => hns (List.mem_cons_of_mem _ hs), ?_⟩
        rw [List.find?_cons]
        split
        · next heq => exact absurd (of_decide_eq_true heq) (Ne.symm hxz)
        · exact hfind

theorem filter_dropDupAux_of_seen (seen : List κ) (l : List α) (k : κ) (hk : k ∈ seen) :
    ((dropDupAux key seen l).filter (fun y => decide (key y = k))).length = 0 := by
  induction l generalizing seen with
  | nil => simp [dropDupAux]
  | cons x xs ih =>
    rw [dropDupAux]
    split
    · exact ih seen hk
    · next hx =>
      rw [List.filter_cons]
      split
      · next heq =>
        exact absurd ((of_decide_eq_true heq) ▸ hk) hx
      · exact ih (key x :: seen) (List.mem_cons_of_mem _ hk)

theorem filter_dropDupAux_of_mem (seen : List κ) (l : List α) (k : κ)
    (hk : k ∉ seen) (hm : k ∈ l.map key) :
    ((dropDupAux key seen l).filter (fun y => decide (key y = k))).length = 1 := by
  induction l generalizing seen with
  | nil => simp at hm
  | cons x xs ih =>
    rw [dropDupAux]
    split
    · next hx =>
      have hne : k ≠ key x := fun he => hk (he ▸ hx)
      rw [List.map_cons] at hm
      rcases List.mem_cons.mp hm with he | hm'
      · exact absurd he hne
      · exact ih seen hk hm'
    · next hx =>
      rw [List.filter_cons]
      by_cases hke : key x = k
      · rw [if_pos (decide_eq_true hke)]
        simp only [List.length_cons, Nat.add_left_cancel_iff]
        rw [filter_dropDupAux_of_seen key _ _ _ (hke ▸ List.mem_cons_self _ _)]
      · rw [if_neg (by simpa using hke)]
        rw [List.map_cons] at hm
        rcases List.mem_cons.mp hm with he | hm'
        · exact absurd he.symm hke
        · exact ih (key x :: seen) (by
            simp only [List.mem_cons, not_or]
            exact ⟨fun he => hke he.symm, hk⟩) hm'

theorem nodup_key_drop_duplicates (l : List α) :
    ((drop_duplicates key l).map key).Nodup :=
  nodup_key_dropDupAux key [] l

theorem find?_drop_duplicates (l : List α) (x : α) (h : x ∈ drop_duplicates key l) :
    l.find? (fun y => decide (key y = key x)) = some x :=
  (find?_dropDupAux key [] l x h).2

theorem filter_drop_duplicates (l : List α) (k : κ) (hm : k ∈ l.map key) :
    ((drop_duplicates key l).filter (fun y => decide (key y = k))).length = 1 :=
  filter_dropDupAux_of_mem key [] l k (by simp) hm

end Dedup

/-! ### Lemmas about the fact-table construction -/

theorem buildReviews_length (n : Nat) (c : List Cleaned) :
    (buildReviews n c).length = c.length := by
  induction c generalizing n with
  | nil => rfl
  | cons r rs ih => simp [buildReviews, ih]

theorem buildReviews_get (n : Nat) (c : List Cleaned) (i : Nat)
    (h : i < (buildReviews n c).length) (h' : i < c.length) :
    (buildReviews n c).get ⟨i, h⟩ = mkFact (n + i) (c.get ⟨i, h'⟩) := by
  induction c generalizing n i with
  | nil => simp at h'
  | cons r rs ih =>
    cases i with
    | zero => simp [buildReviews]
    | succ j =>
      have hj : j < (buildReviews (n + 1) rs).length := by
        rw [buildReviews_length]
        exact Nat.lt_of_succ_lt_succ h'
      have hj' : j < rs.length := Nat.lt_of_succ_lt_succ h'
      have := ih (n + 1) j hj hj'
      simp only [buildReviews, List.get_cons_succ]
      rw [this, Nat.add_assoc, Nat.add_comm 1 j]

theorem mem_buildReviews (n : Nat) (c : List Cleaned) (f : FactRow)
    (h : f ∈ buildReviews n c) : ∃ r ∈ c, ∃ m, f = mkFact m r := by
  induction c generalizing n with
  | nil => simp [buildReviews] at h
  | cons r rs ih =>
    rcases List.mem_cons.mp h with rfl | hmem
    · exact ⟨r, List.mem_cons_self _ _, n, rfl⟩
    · obtain ⟨r', hr', m, hm⟩ := ih (n + 1) hmem
      exact ⟨r', List.mem_cons_of_mem _ hr', m, hm⟩

/-! ### Inversion lemmas for the pipeline stages -/

theorem transform_ok_inv {df1 : List RawProduct} {df2 : List RawReview} {outs : Outputs}
    (h : transform_data df1 df2 = .ok outs) :
    ∃ c, cleanedStage df1 df2 = .ok c ∧ outs = mkOutputs c := by
  unfold transform_data at h
  rcases hc : cleanedStage df1 df2 with e | c <;> rw [hc] at h
  · simp at h
  · exact ⟨c, rfl, (Except.ok.injEq _ _ ▸ h).symm⟩

theorem transform_eq_ok {df1 : List RawProduct} {df2 : List RawReview} {c : List Cleaned}
    (h : cleanedStage df1 df2 = .ok c) :
    transform_data df1 df2 = .ok (mkOutputs c) := by
  unfold transform_data
  rw [h]

theorem transform_eq_error {df1 : List RawProduct} {df2 : List RawReview} {e : TError}
    (h : cleanedStage df1 df2 = .error e) :
    transform_data df1 df2 = .error e := by
  unfold transform_data
  rw [h]

theorem cleanedStage_ok_inv {df1 : List RawProduct} {df2 : List RawReview} {c : List Cleaned}
    (h : cleanedStage df1 df2 = .ok c) :
    ∃ dated, datedStage df1 df2 = .ok dated ∧ convertIds (numericFilter dated) = .ok c := by
  unfold cleanedStage at h
  rcases hd : datedStage df1 df2 with e | dated <;> rw [hd] at h
  · simp at h
  · exact ⟨dated, rfl, h⟩

theorem cleanedStage_eq_error {df1 : List RawProduct} {df2 : List RawReview} {e : TError}
    (h : datedStage df1 df2 = .error e) :
    cleanedStage df1 df2 = .error e := by
  unfold cleanedStage
  rw [h]

theorem datedStage_ok_inv {df1 : List RawProduct} {df2 : List RawReview} {dated : List Dated}
    (h : datedStage df1 df2 = .ok dated) :
    ∃ filled, fillCats (fillTitle (dropNullText (df_merged df1 df2))) = .ok filled ∧
      parseDates filled = .ok dated := by
  unfold datedStage at h
  rcases hf : fillCats (fillTitle (dropNullText (df_merged df1 df2))) with e | filled <;>
    rw [hf] at h
  · simp at h
  · exact ⟨filled, rfl, h⟩

theorem datedStage_eq_error {df1 : List RawProduct} {df2 : List RawReview} {e : TError}
    (h : fillCats (fillTitle (dropNullText (df_merged df1 df2))) = .error e) :
    datedStage df1 df2 = .error e := by
  unfold datedStage
  rw [h]

theorem fillSkinTone_ok_inv {l out : List Merged} (h : fillSkinTone l = .ok out) :
    ∃ m, modeStr (catVals (fun r => r.reviewer_skin_tone) l) = some m ∧
      out = l.map (fun r => { r with reviewer_skin_tone := some (r.reviewer_skin_tone.getD m) }) := by
  unfold fillSkinTone at h
  rcases hm : modeStr (catVals (fun r => r.reviewer_skin_tone) l) with _ | m <;> rw [hm] at h
  · simp at h
  · exact ⟨m, rfl, (Except.ok.injEq _ _ ▸ h).symm⟩

theorem fillEyeColor_ok_inv {l out : List Merged} (h : fillEyeColor l = .ok out) :
    ∃ m, modeStr (catVals (fun r => r.reviewer_eye_color) l) = some m ∧
      out = l.map (fun r => { r with reviewer_eye_color := some (r.reviewer_eye_color.getD m) }) := by
  unfold fillEyeColor at h
  rcases hm : modeStr (catVals (fun r => r.reviewer_eye_color) l) with _ | m <;> rw [hm] at h
  · simp at h
  · exact ⟨m, rfl, (Except.ok.injEq _ _ ▸ h).symm⟩

theorem fillSkinType_ok_inv {l out : List Merged} (h : fillSkinType l = .ok out) :
    ∃ m, modeStr (catVals (fun r => r.reviewer_skin_type) l) = some m ∧
      out = l.map (fun r => { r with reviewer_skin_type := some (r.reviewer_skin_type.getD m) }) := by
  unfold fillSkinType at h
  rcases hm : modeStr (catVals (fun r => r.reviewer_skin_type) l) with _ | m <;> rw [hm] at h
  · simp at h
  · exact ⟨m, rfl, (Except.ok.injEq _ _ ▸ h).symm⟩

theorem fillHairColor_ok_inv {l out : List Merged} (h : fillHairColor l = .ok out) :
    ∃ m, modeStr (catVals (fun r => r.reviewer_hair_color) l) = some m ∧
      out = l.map (fun r => { r with reviewer_hair_color := some (r.reviewer_hair_color.getD m) }) := by
  unfold fillHairColor at h
  rcases hm : modeStr (catVals (fun r => r.reviewer_hair_color) l) with _ | m <;> rw [hm] at h
  · simp at h
  · exact ⟨m, rfl, (Except.ok.injEq _ _ ▸ h).symm⟩

theorem fillCats_ok_inv {l out : List Merged} (h : fillCats l = .ok out) :
    ∃ l1 l2 l3, fillSkinTone l = .ok l1 ∧ fillEyeColor l1 = .ok l2 ∧
      fillSkinType l2 = .ok l3 ∧ fillHairColor l3 = .ok out := by
  unfold fillCats at h
  split at h
  · simp at h
  · next l1 h1 =>
    split at h
    · simp at h
    · next l2 h2 =>
      split at h
      · simp at h
      · next l3 h3 => exact ⟨l1, l2, l3, h1, h2, h3, h⟩

/-- A column reader unchanged by a row map commutes with `catVals`. -/
theorem catVals_map (g : Merged → Option String) (F : Merged → Merged)
    (hg : ∀ r, g (F r) = g r) (l : List Merged) :
    catVals g (l.map F) = catVals g l := by
  unfold catVals
  rw [List.filterMap_map]
  exact List.filterMap_congr (fun r _ => hg r)

/-- Combined form of the four sequential mode fills: each column's
mode is taken over the list as it was before any date or numeric-id
filtering, nulls are replaced by it and non-null values are kept. -/
theorem fillCats_modes {l out : List Merged} (h : fillCats l = .ok out) :
    ∃ m1 m2 m3 m4,
      modeStr (catVals (fun r => r.reviewer_skin_tone) l) = some m1 ∧
      modeStr (catVals (fun r => r.reviewer_eye_color) l) = some m2 ∧
      modeStr (catVals (fun r => r.reviewer_skin_type) l) = some m3 ∧
      modeStr (catVals (fun r => r.reviewer_hair_color) l) = some m4 ∧
      out = l.map (fun r =>
        { r with reviewer_skin_tone := some (r.reviewer_skin_tone.getD m1),
                 reviewer_eye_color := some (r.reviewer_eye_color.getD m2),
                 reviewer_skin_type := some (r.reviewer_skin_type.getD m3),
                 reviewer_hair_color := some (r.reviewer_hair_color.getD m4) }) := by
  obtain ⟨l1, l2, l3, h1, h2, h3, h4⟩ := fillCats_ok_inv h
  obtain ⟨m1, hm1, rfl⟩ := fillSkinTone_ok_inv h1
  obtain ⟨m2, hm2, rfl⟩ := fillEyeColor_ok_inv h2
  obtain ⟨m3, hm3, rfl⟩ := fillSkinType_ok_inv h3
  obtain ⟨m4, hm4, rfl⟩ := fillHairColor_ok_inv h4
  rw [catVals_map (fun r => r.reviewer_eye_color)
        (fun r => { r with reviewer_skin_tone := some (r.reviewer_skin_tone.getD m1) })
        (fun r => rfl) l] at hm2
  rw [catVals_map (fun r => r.reviewer_skin_type)
        (fun r => { r with reviewer_eye_color := some (r.reviewer_eye_color.getD m2) })
        (fun r => rfl) _,
      catVals_map (fun r => r.reviewer_skin_type)
        (fun r => { r with reviewer_skin_tone := some (r.reviewer_skin_tone.getD m1) })
        (fun r => rfl) l] at hm3
  rw [catVals_map (fun r => r.reviewer_hair_color)
        (fun r => { r with reviewer_skin_type := some (r.reviewer_skin_type.getD m3) })
        (fun r => rfl) _,
      catVals_map (fun r => r.reviewer_hair_color)
        (fun r => { r with reviewer_eye_color := some (r.reviewer_eye_color.getD m2) })
        (fun r => rfl) _,
      catVals_map (fun r => r.reviewer_hair_color)
        (fun r => { r with reviewer_skin_tone := some (r.reviewer_skin_tone.getD m1) })
        (fun r => rfl) l] at hm4
  refine ⟨m1, m2, m3, m4, hm1, hm2, hm3, hm4, ?_⟩
  simp only [List.map_map]
  rfl

/-- A successful run of the four mode fills needs every categorical
column to contain at least one non-null value. -/
theorem fillCats_ok_nonempty {l out : List Merged} (h : fillCats l = .ok out) :
    catVals (fun r => r.reviewer_skin_tone) l ≠ [] ∧
    catVals (fun r => r.reviewer_eye_color) l ≠ [] ∧
    catVals (fun r => r.reviewer_skin_type) l ≠ [] ∧
    catVals (fun r => r.reviewer_hair_color) l ≠ [] := by
  obtain ⟨m1, m2, m3, m4, hm1, hm2, hm3, hm4, _⟩ := fillCats_modes h
  refine ⟨fun he => ?_, fun he => ?_, fun he => ?_, fun he => ?_⟩
  · rw [(modeStr_eq_none _).mpr he] at hm1; cases hm1
  · rw [(modeStr_eq_none _).mpr he] at hm2; cases hm2
  · rw [(modeStr_eq_none _).mpr he] at hm3; cases hm3
  · rw [(modeStr_eq_none _).mpr he] at hm4; cases hm4

/-! ### Lemmas about the date conversion -/

theorem parseDates_error_of_bad {l : List Merged} (r : Merged) (hr : r ∈ l)
    (hb : parseDate r.full_date = none) : ∃ e, parseDates l = .error e := by
  induction l with
  | nil => simp at hr
  | cons z zs ih =>
    rw [parseDates]
    rcases hz : parseDate z.full_date with _ | d
    · exact ⟨.badDate z.full_date, rfl⟩
    · rcases List.mem_cons.mp hr with rfl | hmem
      · rw [hz] at hb; cases hb
      · obtain ⟨e, he⟩ := ih hmem
        rw [he]
        exact ⟨e, rfl⟩

theorem parseDates_ok_of_all {l : List Merged}
    (h : ∀ r ∈ l, (parseDate r.full_date).isSome) :
    ∃ out, parseDates l = .ok out ∧ out.length = l.length := by
  induction l with
  | nil => exact ⟨[], rfl, rfl⟩
  | cons z zs ih =>
    rw [parseDates]
    rcases hz : parseDate z.full_date with _ | d
    · have := h z (List.mem_cons_self _ _)
      rw [hz] at this; cases this
    · obtain ⟨out, hout, hlen⟩ := ih (fun r hr => h r (List.mem_cons_of_mem _ hr))
      rw [hout]
      exact ⟨_, rfl, by simp [hlen]⟩

theorem parseDates_ok_length {l : List Merged} {out : List Dated}
    (h : parseDates l = .ok out) : out.length = l.length := by
  induction l generalizing out with
  | nil => rw [parseDates] at h; cases h; rfl
  | cons z zs ih =>
    rw [parseDates] at h
    split at h
    · cases h
    · split at h
      · cases h
      · next rest hrest =>
        cases h
        simp [ih hrest]

/-! ### The reviewer-id test against the specified ASCII-digit predicate -/

theorem isDig_iff (c : Char) : isDig c = true ↔ c.isDigit = true := by
  have hle1 : ((48 : UInt32) ≤ c.val) ↔ (48 ≤ c.toNat) := by
    rw [UInt32.le_def, BitVec.le_def]
    simp [Char.toNat, UInt32.toNat]
  have hle2 : (c.val ≤ (57 : UInt32)) ↔ (c.toNat ≤ 57) := by
    rw [UInt32.le_def, BitVec.le_def]
    simp [Char.toNat, UInt32.toNat]
  unfold isDig Char.isDigit
  rw [Bool.and_eq_true, Bool.and_eq_true, decide_eq_true_eq, decide_eq_true_eq,
      decide_eq_true_eq, decide_eq_true_eq, ge_iff_le]
  exact and_congr hle1.symm hle2.symm

theorem checkNumeric_iff (s : String) :
    checkNumeric s = true ↔ (s ≠ "" ∧ ∀ c ∈ s.data, pyIsDigitChar c = true) := by
  have hck : checkNumeric s = str_isdigit s := by
    unfold checkNumeric; split <;> simp_all
  rw [hck]
  unfold str_isdigit
  rw [Bool.and_eq_true, Bool.not_eq_true', List.all_eq_true]
  constructor
  · rintro ⟨hne, hall⟩
    exact ⟨fun he => absurd (he ▸ hne) (by decide), hall⟩
  · rintro ⟨hne, hall⟩
    refine ⟨?_, hall⟩
    rcases s with ⟨d⟩
    cases d with
    | nil => exact absurd rfl hne
    | cons a as => rfl

/-- The numeric-id row filter of the source equals filtering by the
predicate spelled out character-wise: keep exactly the rows whose
reviewer identifier is non-empty and made of Python digit
characters. -/
theorem numericFilter_eq_spec (l : List Dated) :
    numericFilter l =
      l.filter (fun r => decide (r.reviewer_id ≠ "" ∧ ∀ c ∈ r.reviewer_id.data, pyIsDigitChar c = true)) := by
  unfold numericFilter
  apply List.filter_congr
  intro r _
  rcases h : checkNumeric r.reviewer_id with _ | _
  · symm
    rw [decide_eq_false_iff_not]
    intro hp
    rw [(checkNumeric_iff _).mpr hp] at h
    cases h
  · symm
    rw [decide_eq_true_eq]
    exact (checkNumeric_iff _).mp h

/-- Every ASCII digit has a Unicode decimal value, namely its offset
from codepoint 48 — the first decimal run of the database. -/
theorem pyDecimalVal_ascii (c : Char) (h : c.isDigit = true) :
    pyDecimalVal c = some (c.toNat - 48) := by
  have hb : 48 ≤ c.toNat ∧ c.toNat ≤ 57 := by
    have := (isDig_iff c).mpr h
    unfold isDig at this
    rw [Bool.and_eq_true, decide_eq_true_eq, decide_eq_true_eq] at this
    exact this
  unfold pyDecimalVal decimalRunStarts
  rw [List.find?_cons_of_pos]
  · rfl
  · rw [Bool.and_eq_true, decide_eq_true_eq, decide_eq_true_eq]
    exact hb

/-- Every ASCII digit is a digit character in Python's sense. -/
theorem pyIsDigitChar_of_ascii (c : Char) (h : c.isDigit = true) :
    pyIsDigitChar c = true := by
  unfold pyIsDigitChar
  rw [pyDecimalVal_ascii c h]
  rfl

/-- Folding `int()` over ASCII digits computes their base-10 value. -/
theorem pyInt_foldl_ascii (l : List Char) (a : Nat)
    (h : ∀ c ∈ l, c.isDigit = true) :
    l.foldl pyIntStep (some a) = some (l.foldl (fun x c => 10 * x + digVal c) a) := by
  induction l generalizing a with
  | nil => rfl
  | cons c cs ih =>
    rw [List.foldl_cons, List.foldl_cons]
    have hc : pyIntStep (some a) c = some (10 * a + digVal c) := by
      unfold pyIntStep
      rw [pyDecimalVal_ascii c (h c (List.mem_cons_self _ _))]
      rfl
    rw [hc]
    exact ih _ (fun c' hc' => h c' (List.mem_cons_of_mem _ hc'))

/-- On a non-empty all-ASCII-digit string, `int()` succeeds and
returns the base-10 value of the digits. -/
theorem pyInt_ascii (s : String) (hne : s ≠ "")
    (h : ∀ c ∈ s.data, c.isDigit = true) :
    pyInt s = some (natOfDigits s.data) := by
  unfold pyInt
  have hemp : s.data.isEmpty = false := by
    rcases s with ⟨d⟩
    cases d with
    | nil => exact absurd rfl hne
    | cons a as => rfl
  rw [hemp]
  show s.data.foldl pyIntStep (some 0) = some (natOfDigits s.data)
  exact pyInt_foldl_ascii s.data 0 h

/-- Members of the id-converted list are members of the filtered list
with the reviewer identifier replaced by its `int()` value. -/
theorem mem_convertIds {l : List Dated} {out : List Cleaned}
    (h : convertIds l = .ok out) (x : Cleaned) (hx : x ∈ out) :
    ∃ r ∈ l, ∃ n, pyInt r.reviewer_id = some n ∧ x = r.convert id (fun _ => n) := by
  induction l generalizing out with
  | nil =>
    rw [convertIds] at h
    cases h
    simp at hx
  | cons z zs ih =>
    rw [convertIds] at h
    split at h
    · cases h
    · next n hn =>
      split at h
      · cases h
      · next rest hrest =>
        cases h
        rcases List.mem_cons.mp hx with rfl | hmem
        · exact ⟨z, List.mem_cons_self _ _, n, hn, rfl⟩
        · obtain ⟨r, hr, n', hn', he⟩ := ih hrest hmem
          exact ⟨r, List.mem_cons_of_mem _ hr, n', hn', he⟩

/-- Members of the date-parsed list are members of the original list
with only the `full_date` column replaced by the parsed value. -/
theorem mem_parseDates {l : List Merged} {out : List Dated}
    (h : parseDates l = .ok out) (x : Dated) (hx : x ∈ out) :
    ∃ r ∈ l, ∃ d, parseDate r.full_date = some d ∧ x = r.convert (fun _ => d) id := by
  induction l generalizing out with
  | nil =>
    rw [parseDates] at h
    cases h
    simp at hx
  | cons z zs ih =>
    rw [parseDates] at h
    split at h
    · cases h
    · next d hd =>
      split at h
      · cases h
      · next rest hrest =>
        cases h
        rcases List.mem_cons.mp hx with rfl | hmem
        · exact ⟨z, List.mem_cons_self _ _, d, hd, rfl⟩
        · obtain ⟨r, hr, d', hd', he⟩ := ih hrest hmem
          exact ⟨r, List.mem_cons_of_mem _ hr, d', hd', he⟩

/-- The title fill leaves any column other than `review_title`
unchanged. -/
theorem catVals_fillTitle (g : Merged → Option String)
    (hg : ∀ r : Merged,
      g { r with review_title := some (r.review_title.getD "Review Provided") } = g r)
    (l : List Merged) : catVals g (fillTitle l) = catVals g l := by
  unfold fillTitle
  exact catVals_map g _ hg l

/-! ### Concrete inputs used to witness the claims -/

/-- Two products used as a concrete witness input. -/
def PW : List RawProduct :=
  [⟨"P1", 1, some 5, some 4, some 10, some "Skincare", some 3⟩,
   ⟨"P2", 2, none, none, none, none, none⟩]

/-- Three reviews used as a concrete witness input: one clean review
of each product and one review whose reviewer identifier is not
numeric. -/
def RW : List RawReview :=
  [⟨"100", some 5, "2022-01-05", some "Great", none, some "fair", some "blue", some "dry", some "brown", "P1", "Lotion", "Acme", 10⟩,
   ⟨"abc", some 4, "2022-01-06", some "Nice", some "T", none, some "green", some "oily", some "black", "P1", "Lotion", "Acme", 12⟩,
   ⟨"200", none, "2022-01-05", some "Ok", some "meh", some "tan", none, some "dry", none, "P2", "Serum", "Brand2", 8⟩]

/-- The transform's output on the witness input. -/
def OW : Outputs := (transform_data PW RW).toOption.getD default

/-- The cleaned row set of the witness input. -/
def CW : List Cleaned := (cleanedStage PW RW).toOption.getD []

/-- The date-parsed row set of the witness input. -/
def DW : List Dated := (datedStage PW RW).toOption.getD []

/-- The mode-filled row set of the witness input. -/
def FW : List Merged :=
  (fillCats (fillTitle (dropNullText (df_merged PW RW)))).toOption.getD []

/-! ### The claims -/

/-- C1: Referential closure — whenever the transform produces outputs,
every fact row's product_id, brand_id, reviewer_id and date_id each
appears exactly once as a key value in the corresponding dimension
output. -/
theorem c1_referential_closure (df1 : List RawProduct) (df2 : List RawReview)
    (outs : Outputs) (h : transform_data df1 df2 = .ok outs) :
    ∀ f ∈ outs.reviews,
      ((outs.product.filter (fun p => decide (p.product_id = f.product_id))).length = 1) ∧
      ((outs.brand.filter (fun b => decide (b.brand_id = f.brand_id))).length = 1) ∧
      ((outs.reviewer.filter (fun v => decide (v.reviewer_id = f.reviewer_id))).length = 1) ∧
      ((outs.date.filter (fun d => decide (d.date_id = f.date_id))).length = 1) := by
  obtain ⟨c, hc, rfl⟩ := transform_ok_inv h
  intro f hf
  obtain ⟨r, hr, m, rfl⟩ := mem_buildReviews 1 c f hf
  refine ⟨?_, ?_, ?_, ?_⟩
  · exact filter_drop_duplicates (fun p => p.product_id) (c.map projProduct) _
      (List.mem_map.mpr ⟨projProduct r, List.mem_map_of_mem projProduct hr, rfl⟩)
  · exact filter_drop_duplicates (fun b => b.brand_id) (c.map projBrand) _
      (List.mem_map.mpr ⟨projBrand r, List.mem_map_of_mem projBrand hr, rfl⟩)
  · exact filter_drop_duplicates (fun v => v.reviewer_id) (c.map projReviewer) _
      (List.mem_map.mpr ⟨projReviewer r, List.mem_map_of_mem projReviewer hr, rfl⟩)
  · exact filter_drop_duplicates (fun d => d.date_id) (c.map projDate) _
      (List.mem_map.mpr ⟨projDate r, List.mem_map_of_mem projDate hr, rfl⟩)

/-- Witness for C1 at the concrete input. -/
theorem c1_witness :
    transform_data PW RW = .ok OW ∧
    (∀ f ∈ OW.reviews,
      ((OW.product.filter (fun p => decide (p.product_id = f.product_id))).length = 1) ∧
      ((OW.brand.filter (fun b => decide (b.brand_id = f.brand_id))).length = 1) ∧
      ((OW.reviewer.filter (fun v => decide (v.reviewer_id = f.reviewer_id))).length = 1) ∧
      ((OW.date.filter (fun d => decide (d.date_id = f.date_id))).length = 1)) :=
  ⟨by rfl, c1_referential_closure PW RW OW (by rfl)⟩

/-- C2: Key uniqueness — whenever the transform produces outputs, each
of the four dimension outputs has pairwise distinct key values. -/
theorem c2_key_uniqueness (df1 : List RawProduct) (df2 : List RawReview)
    (outs : Outputs) (h : transform_data df1 df2 = .ok outs) :
    (outs.product.map (fun p => p.product_id)).Nodup ∧
    (outs.brand.map (fun b => b.brand_id)).Nodup ∧
    (outs.reviewer.map (fun v => v.reviewer_id)).Nodup ∧
    (outs.date.map (fun d => d.date_id)).Nodup := by
  obtain ⟨c, hc, rfl⟩ := transform_ok_inv h
  exact ⟨nodup_key_drop_duplicates _ _, nodup_key_drop_duplicates _ _,
         nodup_key_drop_duplicates _ _, nodup_key_drop_duplicates _ _⟩

/-- Witness for C2 at the concrete input. -/
theorem c2_witness :
    transform_data PW RW = .ok OW ∧
    ((OW.product.map (fun p => p.product_id)).Nodup ∧
     (OW.brand.map (fun b => b.brand_id)).Nodup ∧
     (OW.reviewer.map (fun v => v.reviewer_id)).Nodup ∧
     (OW.date.map (fun d => d.date_id)).Nodup) :=
  ⟨by rfl, c2_key_uniqueness PW RW OW (by rfl)⟩

/-- One product used for the C3 counterexample. -/
def P3 : List RawProduct := [⟨"P1", 7, none, none, none, none, none⟩]

/-- One review whose `review_text` is the empty string — not a missing
value — used for the C3 counterexample. -/
def R3 : List RawReview :=
  [⟨"123", some 5, "2022-01-05", some "", some "t", some "fair", some "blue", some "dry", some "brown", "P1", "Lotion", "Acme", 10⟩]

/-- C3 counterexample: a merged row whose `review_text` is the empty
string (not null) survives `dropna` and produces a fact row whose
`review_text` is the empty string — so it is not true that a row with
empty review text yields no fact row. -/
theorem c3_counterexample :
    (transform_data P3 R3).map (fun o => o.reviews.map (fun f => f.review_text)) =
      .ok [some ""] := by
  rfl

/-- C3 amended: only rows whose `review_text` is null are dropped;
whenever the transform produces outputs, every fact row's
`review_text` is non-null (it may be the empty string). -/
theorem c3_amended_null_text_exclusion (df1 : List RawProduct) (df2 : List RawReview)
    (outs : Outputs) (h : transform_data df1 df2 = .ok outs) :
    ∀ f ∈ outs.reviews, f.review_text ≠ none := by
  obtain ⟨c, hc, rfl⟩ := transform_ok_inv h
  obtain ⟨dated, hd, hconv⟩ := cleanedStage_ok_inv hc
  obtain ⟨filled, hfc, hp⟩ := datedStage_ok_inv hd
  intro f hf
  obtain ⟨r, hr, m, rfl⟩ := mem_buildReviews 1 _ f hf
  obtain ⟨rd, hrd, n, hn, rfl⟩ := mem_convertIds hconv r hr
  have hrd2 : rd ∈ dated := List.mem_of_mem_filter hrd
  obtain ⟨rm, hrm, d, hpd, rfl⟩ := mem_parseDates hp rd hrd2
  obtain ⟨m1, m2, m3, m4, _, _, _, _, rfl⟩ := fillCats_modes hfc
  obtain ⟨rt, hrt, rfl⟩ := List.mem_map.mp hrm
  unfold fillTitle at hrt
  obtain ⟨r0, hr0, rfl⟩ := List.mem_map.mp hrt
  have h0 : r0.review_text.isSome := by
    have := List.mem_filter.mp hr0
    simpa [dropNullText] using this.2
  show r0.review_text ≠ none
  exact Option.isSome_iff_ne_none.mp h0

/-- Witness for the amended C3 at the concrete input. -/
theorem c3_amended_witness :
    transform_data PW RW = .ok OW ∧ (∀ f ∈ OW.reviews, f.review_text ≠ none) :=
  ⟨by rfl, c3_amended_null_text_exclusion PW RW OW (by rfl)⟩

/-- One product used for the C4 counterexample. -/
def P4 : List RawProduct := [⟨"P1", 7, none, none, none, none, none⟩]

/-- One review whose reviewer identifier is the Arabic-Indic digit
three (codepoint 1635): no character of it is an ASCII digit, yet
Python's `str.isdigit` accepts it and `int()` stores it as 3. -/
def R4 : List RawReview :=
  [⟨"٣", some 5, "2022-01-05", some "ok", some "t", some "fair", some "blue", some "dry", some "brown", "P1", "Lotion", "Acme", 10⟩]

/-- One review whose reviewer identifier is the superscript two
(codepoint 178): `str.isdigit` accepts it, so the row passes the
filter, and `int()` then raises, aborting the whole run. -/
def R4b : List RawReview :=
  [⟨"²", some 5, "2022-01-05", some "ok", some "t", some "fair", some "blue", some "dry", some "brown", "P1", "Lotion", "Acme", 10⟩]

/-- C4 counterexample: acceptance is not "every character is an ASCII
digit".  The identifier "٣" contains no ASCII digit, yet its row is
retained and stored as reviewer 3 in both the fact output and the
reviewer dimension; and the accepted identifier "²" is not stored as a
non-negative integer at all — `int()` raises on it and the transform
aborts instead of producing outputs. -/
theorem c4_counterexample :
    (transform_data P4 R4).map (fun o =>
      (o.reviews.map (fun f => f.reviewer_id), o.reviewer.map (fun v => v.reviewer_id))) =
      .ok ([3], [3]) ∧
    "٣".data.all (fun c => c.isDigit) = false ∧
    transform_data P4 R4b = .error (.badReviewerId "²") ∧
    "²".data.all (fun c => c.isDigit) = false := by
  refine ⟨by rfl, by rfl, by rfl, by rfl⟩

/-- C4 amended: a reviewer identifier is accepted exactly when it is
non-empty and every character is a digit character in the sense of
Python's `str.isdigit` — every ASCII-digit identifier is accepted, but
so are other Unicode digit identifiers; a sign, a decimal point or the
empty string is still rejected, and rejected identifiers' rows feed
neither the fact output nor the reviewer dimension.  Every fact row's
reviewer id is the `int()` value of an accepted identifier, a
non-negative integer, and an accepted all-ASCII identifier is stored
as the base-10 value of its digits.  (An accepted identifier whose
digit characters carry no decimal value makes `int()` raise and the
run abort, as the counterexample shows.) -/
theorem c4_amended_numeric_reviewer_filter (df1 : List RawProduct) (df2 : List RawReview)
    (dated : List Dated) (outs : Outputs)
    (hd : datedStage df1 df2 = .ok dated) (h : transform_data df1 df2 = .ok outs) :
    numericFilter dated =
      dated.filter (fun r => decide (r.reviewer_id ≠ "" ∧ ∀ c ∈ r.reviewer_id.data, pyIsDigitChar c = true)) ∧
    (∀ r ∈ dated, r.reviewer_id ≠ "" → (∀ c ∈ r.reviewer_id.data, c.isDigit = true) →
      r ∈ numericFilter dated) ∧
    (checkNumeric "12.0" = false ∧ checkNumeric "-5" = false ∧ checkNumeric "" = false) ∧
    (∃ c, convertIds (numericFilter dated) = .ok c ∧
      outs.reviews = buildReviews 1 c ∧ outs.reviewer = buildReviewerDim c) ∧
    (∀ f ∈ outs.reviews, ∃ r ∈ numericFilter dated, pyInt r.reviewer_id = some f.reviewer_id) ∧
    (∀ r ∈ numericFilter dated, (∀ c ∈ r.reviewer_id.data, c.isDigit = true) →
      pyInt r.reviewer_id = some (natOfDigits r.reviewer_id.data)) := by
  obtain ⟨c, hc, rfl⟩ := transform_ok_inv h
  obtain ⟨dated', hd', hconv⟩ := cleanedStage_ok_inv hc
  rw [hd] at hd'
  cases hd'
  refine ⟨numericFilter_eq_spec dated, ?_, ⟨by rfl, by rfl, by rfl⟩, ?_, ?_, ?_⟩
  · intro r hr hne hall
    exact List.mem_filter.mpr
      ⟨hr, (checkNumeric_iff _).mpr ⟨hne, fun ch hch => pyIsDigitChar_of_ascii ch (hall ch hch)⟩⟩
  · exact ⟨c, hconv, rfl, rfl⟩
  · intro f hf
    obtain ⟨r, hr, m, rfl⟩ := mem_buildReviews 1 c f hf
    obtain ⟨rd, hrd, n, hn, rfl⟩ := mem_convertIds hconv r hr
    exact ⟨rd, hrd, hn⟩
  · intro r hr hall
    obtain ⟨hne, _⟩ := (checkNumeric_iff _).mp (List.mem_filter.mp hr).2
    exact pyInt_ascii _ hne hall

/-- Witness for the amended C4 at the concrete input (one of its three
reviews has the identifier "abc" and is excluded; the others, "100"
and "200", are all-ASCII and stored as 100 and 200). -/
theorem c4_amended_witness :
    datedStage PW RW = .ok DW ∧ transform_data PW RW = .ok OW ∧
    (numericFilter DW =
       DW.filter (fun r => decide (r.reviewer_id ≠ "" ∧ ∀ c ∈ r.reviewer_id.data, pyIsDigitChar c = true)) ∧
     (∀ r ∈ DW, r.reviewer_id ≠ "" → (∀ c ∈ r.reviewer_id.data, c.isDigit = true) →
       r ∈ numericFilter DW) ∧
     (checkNumeric "12.0" = false ∧ checkNumeric "-5" = false ∧ checkNumeric "" = false) ∧
     (∃ c, convertIds (numericFilter DW) = .ok c ∧
       OW.reviews = buildReviews 1 c ∧ OW.reviewer = buildReviewerDim c) ∧
     (∀ f ∈ OW.reviews, ∃ r ∈ numericFilter DW, pyInt r.reviewer_id = some f.reviewer_id) ∧
     (∀ r ∈ numericFilter DW, (∀ c ∈ r.reviewer_id.data, c.isDigit = true) →
       pyInt r.reviewer_id = some (natOfDigits r.reviewer_id.data))) :=
  ⟨by rfl, by rfl, c4_amended_numeric_reviewer_filter PW RW DW OW (by rfl) (by rfl)⟩

/-- C5: each of the four categorical reviewer attributes is
mode-filled: whenever the fills succeed, the filled rows are exactly
the title-defaulted rows with each null categorical value replaced by
that column's mode, where each mode is a most-frequent non-null value
of the column as it stands after the null-review-text drop and before
the date derivation and the numeric-id filter. -/
theorem c5_mode_fill (df1 : List RawProduct) (df2 : List RawReview)
    (filled : List Merged)
    (h : fillCats (fillTitle (dropNullText (df_merged df1 df2))) = .ok filled) :
    ∃ m1 m2 m3 m4,
      modeStr (catVals (fun r => r.reviewer_skin_tone) (dropNullText (df_merged df1 df2))) = some m1 ∧
      modeStr (catVals (fun r => r.reviewer_eye_color) (dropNullText (df_merged df1 df2))) = some m2 ∧
      modeStr (catVals (fun r => r.reviewer_skin_type) (dropNullText (df_merged df1 df2))) = some m3 ∧
      modeStr (catVals (fun r => r.reviewer_hair_color) (dropNullText (df_merged df1 df2))) = some m4 ∧
      filled = (fillTitle (dropNullText (df_merged df1 df2))).map (fun r =>
        { r with reviewer_skin_tone := some (r.reviewer_skin_tone.getD m1),
                 reviewer_eye_color := some (r.reviewer_eye_color.getD m2),
                 reviewer_skin_type := some (r.reviewer_skin_type.getD m3),
                 reviewer_hair_color := some (r.reviewer_hair_color.getD m4) }) ∧
      (m1 ∈ catVals (fun r => r.reviewer_skin_tone) (dropNullText (df_merged df1 df2)) ∧
        ∀ v ∈ catVals (fun r => r.reviewer_skin_tone) (dropNullText (df_merged df1 df2)),
          (catVals (fun r => r.reviewer_skin_tone) (dropNullText (df_merged df1 df2))).count v ≤
          (catVals (fun r => r.reviewer_skin_tone) (dropNullText (df_merged df1 df2))).count m1) ∧
      (m2 ∈ catVals (fun r => r.reviewer_eye_color) (dropNullText (df_merged df1 df2)) ∧
        ∀ v ∈ catVals (fun r => r.reviewer_eye_color) (dropNullText (df_merged df1 df2)),
          (catVals (fun r => r.reviewer_eye_color) (dropNullText (df_merged df1 df2))).count v ≤
          (catVals (fun r => r.reviewer_eye_color) (dropNullText (df_merged df1 df2))).count m2) ∧
      (m3 ∈ catVals (fun r => r.reviewer_skin_type) (dropNullText (df_merged df1 df2)) ∧
        ∀ v ∈ catVals (fun r => r.reviewer_skin_type) (dropNullText (df_merged df1 df2)),
          (catVals (fun r => r.reviewer_skin_type) (dropNullText (df_merged df1 df2))).count v ≤
          (catVals (fun r => r.reviewer_skin_type) (dropNullText (df_merged df1 df2))).count m3) ∧
      (m4 ∈ catVals (fun r => r.reviewer_hair_color) (dropNullText (df_merged df1 df2)) ∧
        ∀ v ∈ catVals (fun r => r.reviewer_hair_color) (dropNullText (df_merged df1 df2)),
          (catVals (fun r => r.reviewer_hair_color) (dropNullText (df_merged df1 df2))).count v ≤
          (catVals (fun r => r.reviewer_hair_color) (dropNullText (df_merged df1 df2))).count m4) := by
  obtain ⟨m1, m2, m3, m4, hm1, hm2, hm3, hm4, hout⟩ := fillCats_modes h
  rw [catVals_fillTitle (fun r => r.reviewer_skin_tone) (fun r => rfl) _] at hm1
  rw [catVals_fillTitle (fun r => r.reviewer_eye_color) (fun r => rfl) _] at hm2
  rw [catVals_fillTitle (fun r => r.reviewer_skin_type) (fun r => rfl) _] at hm3
  rw [catVals_fillTitle (fun r => r.reviewer_hair_color) (fun r => rfl) _] at hm4
  obtain ⟨hme1, hmx1⟩ := modeStr_spec _ _ hm1
  obtain ⟨hme2, hmx2⟩ := modeStr_spec _ _ hm2
  obtain ⟨hme3, hmx3⟩ := modeStr_spec _ _ hm3
  obtain ⟨hme4, hmx4⟩ := modeStr_spec _ _ hm4
  exact ⟨m1, m2, m3, m4, hm1, hm2, hm3, hm4, hout,
         ⟨hme1, hmx1⟩, ⟨hme2, hmx2⟩, ⟨hme3, hmx3⟩, ⟨hme4, hmx4⟩⟩

/-- Witness for C5 at the concrete input. -/
theorem c5_witness :
    fillCats (fillTitle (dropNullText (df_merged PW RW))) = .ok FW ∧
    (∃ m1 m2 m3 m4,
      modeStr (catVals (fun r => r.reviewer_skin_tone) (dropNullText (df_merged PW RW))) = some m1 ∧
      modeStr (catVals (fun r => r.reviewer_eye_color) (dropNullText (df_merged PW RW))) = some m2 ∧
      modeStr (catVals (fun r => r.reviewer_skin_type) (dropNullText (df_merged PW RW))) = some m3 ∧
      modeStr (catVals (fun r => r.reviewer_hair_color) (dropNullText (df_merged PW RW))) = some m4 ∧
      FW = (fillTitle (dropNullText (df_merged PW RW))).map (fun r =>
        { r with reviewer_skin_tone := some (r.reviewer_skin_tone.getD m1),
                 reviewer_eye_color := some (r.reviewer_eye_color.getD m2),
                 reviewer_skin_type := some (r.reviewer_skin_type.getD m3),
                 reviewer_hair_color := some (r.reviewer_hair_color.getD m4) }) ∧
      (m1 ∈ catVals (fun r => r.reviewer_skin_tone) (dropNullText (df_merged PW RW)) ∧
        ∀ v ∈ catVals (fun r => r.reviewer_skin_tone) (dropNullText (df_merged PW RW)),
          (catVals (fun r => r.reviewer_skin_tone) (dropNullText (df_merged PW RW))).count v ≤
          (catVals (fun r => r.reviewer_skin_tone) (dropNullText (df_merged PW RW))).count m1) ∧
      (m2 ∈ catVals (fun r => r.reviewer_eye_color) (dropNullText (df_merged PW RW)) ∧
        ∀ v ∈ catVals (fun r => r.reviewer_eye_color) (dropNullText (df_merged PW RW)),
          (catVals (fun r => r.reviewer_eye_color) (dropNullText (df_merged PW RW))).count v ≤
          (catVals (fun r => r.reviewer_eye_color) (dropNullText (df_merged PW RW))).count m2) ∧
      (m3 ∈ catVals (fun r => r.reviewer_skin_type) (dropNullText (df_merged PW RW)) ∧
        ∀ v ∈ catVals (fun r => r.reviewer_skin_type) (dropNullText (df_merged PW RW)),
          (catVals (fun r => r.reviewer_skin_type) (dropNullText (df_merged PW RW))).count v ≤
          (catVals (fun r => r.reviewer_skin_type) (dropNullText (df_merged PW RW))).count m3) ∧
      (m4 ∈ catVals (fun r => r.reviewer_hair_color) (dropNullText (df_merged PW RW)) ∧
        ∀ v ∈ catVals (fun r => r.reviewer_hair_color) (dropNullText (df_merged PW RW)),
          (catVals (fun r => r.reviewer_hair_color) (dropNullText (df_merged PW RW))).count v ≤
          (catVals (fun r => r.reviewer_hair_color) (dropNullText (df_merged PW RW))).count m4)) :=
  ⟨by rfl, c5_mode_fill PW RW FW (by rfl)⟩

/-- C6: if after the null-review-text drop a categorical reviewer
attribute column has no non-null value at all, the transform surfaces
an error and produces no outputs. -/
theorem c6_mode_undefined_error (df1 : List RawProduct) (df2 : List RawReview)
    (h : catVals (fun r => r.reviewer_skin_tone) (dropNullText (df_merged df1 df2)) = [] ∨
         catVals (fun r => r.reviewer_eye_color) (dropNullText (df_merged df1 df2)) = [] ∨
         catVals (fun r => r.reviewer_skin_type) (dropNullText (df_merged df1 df2)) = [] ∨
         catVals (fun r => r.reviewer_hair_color) (dropNullText (df_merged df1 df2)) = []) :
    ∃ e, transform_data df1 df2 = .error e := by
  rcases hfc : fillCats (fillTitle (dropNullText (df_merged df1 df2))) with e | filled
  · exact ⟨e, transform_eq_error (cleanedStage_eq_error (datedStage_eq_error hfc))⟩
  · exfalso
    obtain ⟨hne1, hne2, hne3, hne4⟩ := fillCats_ok_nonempty hfc
    rw [catVals_fillTitle (fun r => r.reviewer_skin_tone) (fun r => rfl) _] at hne1
    rw [catVals_fillTitle (fun r => r.reviewer_eye_color) (fun r => rfl) _] at hne2
    rw [catVals_fillTitle (fun r => r.reviewer_skin_type) (fun r => rfl) _] at hne3
    rw [catVals_fillTitle (fun r => r.reviewer_hair_color) (fun r => rfl) _] at hne4
    rcases h with h | h | h | h
    · exact hne1 h
    · exact hne2 h
    · exact hne3 h
    · exact hne4 h

/-- One product used for the C6 witness. -/
def P6 : List RawProduct := [⟨"P1", 7, none, none, none, none, none⟩]

/-- One review whose `skin_tone` is null, so that after the join the
skin-tone column has no non-null value. -/
def R6 : List RawReview :=
  [⟨"123", some 5, "2022-01-05", some "ok", some "t", none, some "blue", some "dry", some "brown", "P1", "Lotion", "Acme", 10⟩]

/-- Witness for C6 at the concrete input. -/
theorem c6_witness :
    (catVals (fun r => r.reviewer_skin_tone) (dropNullText (df_merged P6 R6)) = [] ∨
     catVals (fun r => r.reviewer_eye_color) (dropNullText (df_merged P6 R6)) = [] ∨
     catVals (fun r => r.reviewer_skin_type) (dropNullText (df_merged P6 R6)) = [] ∨
     catVals (fun r => r.reviewer_hair_color) (dropNullText (df_merged P6 R6)) = []) ∧
    (∃ e, transform_data P6 R6 = .error e) :=
  ⟨Or.inl (by rfl), c6_mode_undefined_error P6 R6 (Or.inl (by rfl))⟩

/-- Does some surviving merged row (after the null-text drop, title
default and mode fills) carry an unparseable submission timestamp? -/
def anyBadDate (df1 : List RawProduct) (df2 : List RawReview) : Bool :=
  match fillCats (fillTitle (dropNullText (df_merged df1 df2))) with
  | .error _ => false
  | .ok filled => filled.any (fun r => (parseDate r.full_date).isNone)

/-- C7: an unparseable submission timestamp on any surviving merged
row aborts the whole run — the transform produces none of the five
outputs — and when every timestamp parses, no row is dropped by the
date derivation. -/
theorem c7_bad_timestamp_aborts (df1 : List RawProduct) (df2 : List RawReview) :
    (anyBadDate df1 df2 = true → ∃ e, transform_data df1 df2 = .error e) ∧
    (∀ filled dated, fillCats (fillTitle (dropNullText (df_merged df1 df2))) = .ok filled →
      datedStage df1 df2 = .ok dated → dated.length = filled.length) := by
  constructor
  · intro hb
    unfold anyBadDate at hb
    split at hb
    · cases hb
    · next filled hfc =>
      obtain ⟨r, hr, hbad⟩ := List.any_eq_true.mp hb
      obtain ⟨e, he⟩ := parseDates_error_of_bad r hr (Option.isNone_iff_eq_none.mp hbad)
      refine ⟨e, transform_eq_error (cleanedStage_eq_error ?_)⟩
      unfold datedStage
      rw [hfc]
      exact he
  · intro filled dated hfc hds
    obtain ⟨filled', hfc', hp⟩ := datedStage_ok_inv hds
    rw [hfc] at hfc'
    cases hfc'
    exact parseDates_ok_length hp

/-- One product used for the C7 witness. -/
def P7 : List RawProduct := [⟨"P1", 7, none, none, none, none, none⟩]

/-- One review whose submission timestamp does not parse as a date. -/
def R7 : List RawReview :=
  [⟨"123", some 5, "not-a-date", some "ok", some "t", some "fair", some "blue", some "dry", some "brown", "P1", "Lotion", "Acme", 10⟩]

/-- Witness for C7 at the concrete input. -/
theorem c7_witness :
    anyBadDate P7 R7 = true ∧ (∃ e, transform_data P7 R7 = .error e) :=
  ⟨by rfl, (c7_bad_timestamp_aborts P7 R7).1 (by rfl)⟩

/-- C8: the fact output has one row per surviving cleaned record, and
the synthetic review_id values are the consecutive integers assigned
in row order: the row at 0-based position k carries review_id k+1. -/
theorem c8_sequential_review_ids (df1 : List RawProduct) (df2 : List RawReview)
    (outs : Outputs) (c : List Cleaned)
    (hc : cleanedStage df1 df2 = .ok c) (h : transform_data df1 df2 = .ok outs) :
    outs.reviews = buildReviews 1 c ∧
    outs.reviews.length = c.length ∧
    ∀ k (hk : k < outs.reviews.length),
      (outs.reviews.get ⟨k, hk⟩).review_id = k + 1 := by
  obtain ⟨c', hc', rfl⟩ := transform_ok_inv h
  rw [hc] at hc'
  cases hc'
  refine ⟨rfl, buildReviews_length 1 c, ?_⟩
  intro k hk
  have hk' : k < c.length := by
    rw [← buildReviews_length 1 c]
    exact hk
  show ((buildReviews 1 c).get ⟨k, hk⟩).review_id = k + 1
  rw [buildReviews_get 1 c k hk hk']
  show 1 + k = k + 1
  exact Nat.add_comm 1 k

/-- Witness for C8 at the concrete input. -/
theorem c8_witness :
    cleanedStage PW RW = .ok CW ∧ transform_data PW RW = .ok OW ∧
    (OW.reviews = buildReviews 1 CW ∧
     OW.reviews.length = CW.length ∧
     ∀ k (hk : k < OW.reviews.length),
       (OW.reviews.get ⟨k, hk⟩).review_id = k + 1) :=
  ⟨by rfl, by rfl, c8_sequential_review_ids PW RW OW CW (by rfl) (by rfl)⟩

/-- C9: first occurrence wins in every dimension — each dimension row
is exactly the first projected row (in cleaned row order) carrying its
key, for product, brand, reviewer and date alike. -/
theorem c9_first_occurrence_wins (df1 : List RawProduct) (df2 : List RawReview)
    (outs : Outputs) (c : List Cleaned)
    (hc : cleanedStage df1 df2 = .ok c) (h : transform_data df1 df2 = .ok outs) :
    (∀ d ∈ outs.product,
      (c.map projProduct).find? (fun p => decide (p.product_id = d.product_id)) = some d) ∧
    (∀ d ∈ outs.brand,
      (c.map projBrand).find? (fun b => decide (b.brand_id = d.brand_id)) = some d) ∧
    (∀ d ∈ outs.reviewer,
      (c.map projReviewer).find? (fun v => decide (v.reviewer_id = d.reviewer_id)) = some d) ∧
    (∀ d ∈ outs.date,
      (c.map projDate).find? (fun x => decide (x.date_id = d.date_id)) = some d) := by
  obtain ⟨c', hc', rfl⟩ := transform_ok_inv h
  rw [hc] at hc'
  cases hc'
  exact ⟨fun d hd => find?_drop_duplicates (fun p : ProductRow => p.product_id) (c.map projProduct) d hd,
         fun d hd => find?_drop_duplicates (fun b : BrandRow => b.brand_id) (c.map projBrand) d hd,
         fun d hd => find?_drop_duplicates (fun v : ReviewerRow => v.reviewer_id) (c.map projReviewer) d hd,
         fun d hd => find?_drop_duplicates (fun x : DateRow => x.date_id) (c.map projDate) d hd⟩

/-- Witness for C9 at the concrete input (its cleaned rows contain two
reviews of product P1). -/
theorem c9_witness :
    cleanedStage PW RW = .ok CW ∧ transform_data PW RW = .ok OW ∧
    ((∀ d ∈ OW.product,
       (CW.map projProduct).find? (fun p => decide (p.product_id = d.product_id)) = some d) ∧
     (∀ d ∈ OW.brand,
       (CW.map projBrand).find? (fun b => decide (b.brand_id = d.brand_id)) = some d) ∧
     (∀ d ∈ OW.reviewer,
       (CW.map projReviewer).find? (fun v => decide (v.reviewer_id = d.reviewer_id)) = some d) ∧
     (∀ d ∈ OW.date,
       (CW.map projDate).find? (fun x => decide (x.date_id = d.date_id)) = some d)) :=
  ⟨by rfl, by rfl, c9_first_occurrence_wins PW RW OW CW (by rfl) (by rfl)⟩

/-- The notebook's CREATE TABLE statement for the brand dimension,
which declares `brand_name` UNIQUE in the loader's target table. -/
def tbl_brand_create : String :=
  "CREATE TABLE IF NOT EXISTS tbl_brand( brand_id INT PRIMARY KEY, brand_name TEXT UNIQUE )"

/-- Does `need` occur as a contiguous run inside `hay`? -/
def hasSubAux (need : List Char) : List Char → Bool
  | [] => need.isPrefixOf []
  | c :: cs => need.isPrefixOf (c :: cs) || hasSubAux need cs

/-- Substring test on strings. -/
def strHasSub (hay need : String) : Bool :=
  hasSubAux need.data hay.data

/-- Two products with distinct brand ids used for C10. -/
def P10 : List RawProduct :=
  [⟨"P1", 1, none, none, none, none, none⟩, ⟨"P2", 2, none, none, none, none, none⟩]

/-- Two valid reviews carrying the same brand name for the two
distinct brand ids. -/
def R10 : List RawReview :=
  [⟨"100", some 5, "2022-01-05", some "Great", some "t", some "fair", some "blue", some "dry", some "brown", "P1", "Lotion", "Acme", 10⟩,
   ⟨"101", some 4, "2022-01-05", some "Nice", some "t", some "fair", some "blue", some "dry", some "brown", "P2", "Serum", "Acme", 12⟩]

/-- C10: the brand dimension is deduplicated only by brand_id: on this
input the brand output holds two rows with the same brand_name "Acme"
under the distinct keys 1 and 2, while the loader's DDL declares
brand_name UNIQUE — so such an output cannot satisfy that constraint. -/
theorem c10_brand_dedup_only_by_id :
    (transform_data P10 R10).map (fun o => o.brand.map (fun b => (b.brand_id, b.brand_name))) =
      .ok [(1, "Acme"), (2, "Acme")] ∧
    strHasSub tbl_brand_create "brand_name TEXT UNIQUE" = true := by
  constructor
  · rfl
  · rfl

end ETL
